import Mathlib

/-!
Verification of the iteration-limiting handoff router of this repository
(`src/routers/limit_router.py`).

The router wraps a delegate routing component ("orchestrator"), counts its
own invocations in `current_iteration`, and forces termination once the
configured ceiling `max_iterations` is exceeded; otherwise it forwards the
three routing inputs to the delegate unchanged and returns the delegate's
decision verbatim.

Embedding choices:
* Python integers are `Int` (the counter and the ceiling are plain ints,
  negative ceilings are constructible).
* The delegate `AgentRouter.route` is an opaque external component: it is
  embedded as a function from the three routing inputs to
  `Except ε HandOffRequest`, where `Except.error` models a raised exception.
* `LimitRouter.route` mutates `self.current_iteration` in place and may
  print a diagnostic; the embedding returns the outcome, the post-call
  router state, and the list of messages the router itself printed during
  the call.  The post-call state is returned even when the delegate raised,
  mirroring Python's in-place mutation that precedes the delegate call.
* `HandOffRequest` (from the external flock framework) carries the
  next-agent identifier; following the spec's data model it is an
  `Option String` so that both an absent agent (`none`) and a named or
  empty-string agent (`some s`) are representable.  The code's termination
  branch constructs it with the empty string, i.e. `some ""`.
-/

/-- Routing decision (flock's `HandOffRequest` as described by the spec's
data model `RoutingDecision`): an optional next-agent identifier.  The
source's termination branch constructs it with `next_agent=""` (an
empty-string agent name), which embeds as `some ""`. -/
structure HandOffRequest where
  next_agent : Option String
deriving Repr, DecidableEq

variable {α β γ ε : Type}

/-- Configuration for `LimitRouter` (class `LimitRouterConfig`):
`max_iterations` is a pydantic `int` field with default `10` and no range
constraint; `orchestrator` is the wrapped `AgentRouter`, embedded as a
function from the three routing inputs to an exception or a decision. -/
structure LimitRouterConfig (α β γ ε : Type) where
  max_iterations : Int := 10
  orchestrator : α → β → γ → Except ε HandOffRequest

/-- Pydantic construction of a `LimitRouterConfig`.  The `max_iterations`
field is declared `int = Field(default=10, description=...)` with no `ge`/`gt`
constraint, so validation accepts every integer value (negative ones
included) and never fails on it; an omitted value takes the default `10`.
The error channel (`Except String`) is pydantic's `ValidationError`, which
this field's declaration never raises for an integer input. -/
def mkLimitRouterConfig (max_iterations : Option Int)
    (orchestrator : α → β → γ → Except ε HandOffRequest) :
    Except String (LimitRouterConfig α β γ ε) :=
  Except.ok { max_iterations := max_iterations.getD 10, orchestrator := orchestrator }

/-- State of one `LimitRouter` instance (class `LimitRouter`): its
configuration and the mutable counter `current_iteration`, default `0`. -/
structure LimitRouter (α β γ ε : Type) where
  config : LimitRouterConfig α β γ ε
  current_iteration : Int := 0

/-- The diagnostic printed by the termination branch:
`f"Maximum iterations ({max_iterations}) reached. Stopping execution."`. -/
def ceilingMessage (m : Int) : String :=
  "Maximum iterations (" ++ toString m ++ ") reached. Stopping execution."

/-- Shallow embedding of `LimitRouter.route` (src/routers/limit_router.py,
lines 45-60): increment `self.current_iteration`; if it now exceeds
`self.config.max_iterations`, print the diagnostic, reset the counter to `0`
and return `HandOffRequest(next_agent="")`; otherwise forward
`current_agent`, `result`, `context` unchanged to
`self.config.orchestrator.route` and return its result verbatim.
Returns `(outcome, post-call router state, messages printed)`. -/
def LimitRouter.route (self : LimitRouter α β γ ε)
    (current_agent : α) (result : β) (context : γ) :
    Except ε HandOffRequest × LimitRouter α β γ ε × List String :=
  let self := { self with current_iteration := self.current_iteration + 1 }
  if self.current_iteration > self.config.max_iterations then
    (Except.ok { next_agent := some "" },
      { self with current_iteration := 0 },
      [ceilingMessage self.config.max_iterations])
  else
    (self.config.orchestrator current_agent result context, self, [])

/-- A sequence of calls to `route` on one instance, threading the mutated
state; collects each call's outcome together with the messages it printed. -/
def LimitRouter.routeSeq (self : LimitRouter α β γ ε) :
    List (α × β × γ) →
    LimitRouter α β γ ε × List (Except ε HandOffRequest × List String)
  | [] => (self, [])
  | (a, r, c) :: rest =>
    let step := self.route a r c
    let next := step.2.1.routeSeq rest
    (next.1, (step.1, step.2.2) :: next.2)

/-- Concrete delegate always handing off to the summary agent (the spec's
scenario delegate). -/
def delegateSummary : Unit → Unit → Unit → Except String HandOffRequest :=
  fun _ _ _ => Except.ok { next_agent := some "summary_agent" }

/-- Concrete delegate that itself decides to terminate (`next_agent = None`). -/
def delegateNone : Unit → Unit → Unit → Except String HandOffRequest :=
  fun _ _ _ => Except.ok { next_agent := none }

/-- Concrete delegate whose `route` raises an exception. -/
def delegateBoom : Unit → Unit → Unit → Except String HandOffRequest :=
  fun _ _ _ => Except.error "boom"

/-- A fresh `LimitRouter` over trivial input types with ceiling `m` and
delegate `d`. -/
def routerWith (m : Int) (d : Unit → Unit → Unit → Except String HandOffRequest) :
    LimitRouter Unit Unit Unit String :=
  { config := { max_iterations := m, orchestrator := d }, current_iteration := 0 }

/-- Helper: as long as the counter stays at or under the ceiling, every call
takes the delegation branch: after `calls` the counter has grown by
`calls.length`, the configuration is untouched, and each call's outcome is
the delegate's decision on that call's inputs with nothing printed. -/
theorem routeSeq_under (calls : List (α × β × γ)) :
    ∀ st : LimitRouter α β γ ε,
    st.current_iteration + calls.length ≤ st.config.max_iterations →
    st.routeSeq calls =
      ({ config := st.config,
         current_iteration := st.current_iteration + calls.length },
       calls.map (fun p => (st.config.orchestrator p.1 p.2.1 p.2.2, []))) := by
  induction calls with
  | nil =>
    intro st h
    simp [LimitRouter.routeSeq]
  | cons p rest ih =>
    intro st h
    obtain ⟨a, r, c⟩ := p
    have hlen : (0 : Int) ≤ (rest.length : Int) := Int.natCast_nonneg _
    have hcast : ((rest.length + 1 : Nat) : Int) = (rest.length : Int) + 1 := by
      push_cast
      ring
    rw [List.length_cons, hcast] at h
    have hguard : ¬ (st.current_iteration + 1 > st.config.max_iterations) := by
      omega
    have hstep : st.route a r c =
        (st.config.orchestrator a r c,
         { config := st.config, current_iteration := st.current_iteration + 1 },
         []) := by
      simp only [LimitRouter.route]
      rw [if_neg hguard]
    simp only [LimitRouter.routeSeq, hstep]
    rw [ih { config := st.config, current_iteration := st.current_iteration + 1 }
      (show st.current_iteration + 1 + (rest.length : Int) ≤ st.config.max_iterations by omega)]
    simp only [List.map_cons, List.length_cons, hcast]
    have hadd : st.current_iteration + 1 + (rest.length : Int)
        = st.current_iteration + ((rest.length : Int) + 1) := by ring
    rw [hadd]

/-- Helper: from a fresh instance, after exactly `max_iterations` calls the
next call takes the termination branch: it returns the empty-string handoff
and prints the ceiling diagnostic, for every delegate. -/
theorem fresh_ceiling_step (cfg : LimitRouterConfig α β γ ε)
    (calls : List (α × β × γ)) (a : α) (r : β) (c : γ)
    (h : (calls.length : Int) = cfg.max_iterations) :
    ((LimitRouter.routeSeq { config := cfg, current_iteration := 0 } calls).1.route a r c).1
      = Except.ok { next_agent := some "" } ∧
    ((LimitRouter.routeSeq { config := cfg, current_iteration := 0 } calls).1.route a r c).2.2
      = [ceilingMessage cfg.max_iterations] ∧
    ((LimitRouter.routeSeq { config := cfg, current_iteration := 0 } calls).1.route a r c).2.1
      = { config := cfg, current_iteration := 0 } := by
  rw [routeSeq_under calls _ (by simp [h])]
  simp only [LimitRouter.route]
  rw [if_pos (by simp; omega)]
  exact ⟨rfl, rfl, rfl⟩

/-- A router state as it stands right before a ceiling-triggered call:
ceiling `1`, counter already at `1`. -/
def stAtCeiling : LimitRouter Unit Unit Unit String :=
  { config := { max_iterations := 1, orchestrator := delegateSummary },
    current_iteration := 1 }

/-- C1, claim as stated is false: on the ceiling-triggered call the returned
decision's `next_agent` is `some ""` (the empty-string agent name), not
`none`.  Concretely, with `max_iterations = 1` and the summary delegate, the
2nd call from a fresh instance returns `next_agent = some ""`. -/
theorem c1_counterexample :
    (((routerWith 1 delegateSummary).routeSeq [((), (), ())]).1.route () () ()).1
      = Except.ok { next_agent := some "" } ∧
    ({ next_agent := some "" } : HandOffRequest).next_agent ≠ none :=
  ⟨rfl, by decide⟩

/-- C1 (amended): for every fresh instance with `max_iterations = M` and
every delegate, the (M+1)-th call to `route` returns the terminal decision
with `next_agent = some ""` (the empty string that stops execution),
regardless of what the delegate would have returned; the delegate is not
invoked on that call, witnessed here by the outcome being the same for every
orchestrator `cfg.orchestrator` (erroring ones included). -/
theorem c1_hard_ceiling_empty_string (cfg : LimitRouterConfig α β γ ε)
    (calls : List (α × β × γ)) (a : α) (r : β) (c : γ)
    (h : (calls.length : Int) = cfg.max_iterations) :
    ((LimitRouter.routeSeq { config := cfg, current_iteration := 0 } calls).1.route a r c).1
      = Except.ok { next_agent := some "" } :=
  (fresh_ceiling_step cfg calls a r c h).1

/-- Witness for C1's theorem at `M = 1` with the summary delegate. -/
theorem c1_hard_ceiling_empty_string_witness :
    ((([((), (), ())] : List (Unit × Unit × Unit)).length : Int)
      = ({ max_iterations := 1, orchestrator := delegateSummary } :
          LimitRouterConfig Unit Unit Unit String).max_iterations) ∧
    ((LimitRouter.routeSeq
        { config := { max_iterations := 1, orchestrator := delegateSummary },
          current_iteration := 0 } [((), (), ())]).1.route () () ()).1
      = Except.ok { next_agent := some "" } :=
  ⟨by decide,
   c1_hard_ceiling_empty_string { max_iterations := 1, orchestrator := delegateSummary }
     [((), (), ())] () () () (by decide)⟩

/-- C2: on a fresh instance with ceiling `M`, any sequence of `N ≤ M` calls
leaves the counter at `k` after the `k`-th call, and every call forwards
`current_agent`, `result`, `context` unchanged to the delegate and returns
the delegate's decision unchanged (and prints nothing). -/
theorem c2_monotonic_counting_transparency (cfg : LimitRouterConfig α β γ ε)
    (calls : List (α × β × γ)) (h : (calls.length : Int) ≤ cfg.max_iterations) :
    (∀ k, k ≤ calls.length →
      ((LimitRouter.routeSeq { config := cfg, current_iteration := 0 }
          (calls.take k)).1.current_iteration = (k : Int))) ∧
    (LimitRouter.routeSeq { config := cfg, current_iteration := 0 } calls).2
      = calls.map (fun p => (cfg.orchestrator p.1 p.2.1 p.2.2, [])) := by
  have hcast : ∀ k : Nat, k ≤ calls.length → ((calls.take k).length : Int) = (k : Int) := by
    intro k hk
    rw [List.length_take]
    exact_mod_cast congrArg (Nat.cast : Nat → Int) (Nat.min_eq_left hk)
  constructor
  · intro k hk
    have hlen : (0 : Int) + ((calls.take k).length : Int) ≤ cfg.max_iterations := by
      rw [hcast k hk]
      have : (k : Int) ≤ (calls.length : Int) := by exact_mod_cast hk
      omega
    rw [routeSeq_under (calls.take k) { config := cfg, current_iteration := 0 } hlen]
    rw [show ({ config := cfg, current_iteration :=
        (0 : Int) + ((calls.take k).length : Int) } :
        LimitRouter α β γ ε).current_iteration
      = (0 : Int) + ((calls.take k).length : Int) from rfl, hcast k hk]
    omega
  · rw [routeSeq_under calls { config := cfg, current_iteration := 0 }
      (by show (0 : Int) + (calls.length : Int) ≤ cfg.max_iterations; omega)]

/-- Witness for C2 at `M = 3` with two calls and `k = 2`. -/
theorem c2_monotonic_counting_transparency_witness :
    ((([((), (), ()), ((), (), ())] : List (Unit × Unit × Unit)).length : Int)
      ≤ ({ max_iterations := 3, orchestrator := delegateSummary } :
          LimitRouterConfig Unit Unit Unit String).max_iterations) ∧
    ((LimitRouter.routeSeq
        { config := { max_iterations := 3, orchestrator := delegateSummary },
          current_iteration := 0 }
        ([((), (), ()), ((), (), ())].take 2)).1.current_iteration = ((2 : Nat) : Int)) ∧
    (LimitRouter.routeSeq
        { config := { max_iterations := 3, orchestrator := delegateSummary },
          current_iteration := 0 } [((), (), ()), ((), (), ())]).2
      = [((), (), ()), ((), (), ())].map
          (fun p => (delegateSummary p.1 p.2.1 p.2.2, [])) := by
  have h := c2_monotonic_counting_transparency
    { max_iterations := 3, orchestrator := delegateSummary }
    [((), (), ()), ((), (), ())] (by decide)
  exact ⟨by decide, h.1 2 (by decide), h.2⟩

/-- C3: a ceiling-triggered terminating call leaves the counter at `0` with
the configuration untouched; from that state the next up-to-`M` calls are all
forwarded to the delegate (counter counting up from `0` again), and after
exactly `M` further calls the next call terminates with the empty-string
handoff again — the post-termination instance behaves as a fresh one. -/
theorem c3_reset_on_termination (st : LimitRouter α β γ ε) (a : α) (r : β) (c : γ)
    (h : st.current_iteration + 1 > st.config.max_iterations) :
    (st.route a r c).2.1 = { config := st.config, current_iteration := 0 } ∧
    (∀ calls : List (α × β × γ), (calls.length : Int) ≤ st.config.max_iterations →
      ((st.route a r c).2.1.routeSeq calls).2
        = calls.map (fun p => (st.config.orchestrator p.1 p.2.1 p.2.2, [])) ∧
      ((st.route a r c).2.1.routeSeq calls).1.current_iteration = (calls.length : Int)) ∧
    (∀ (calls : List (α × β × γ)) (a' : α) (r' : β) (c' : γ),
      (calls.length : Int) = st.config.max_iterations →
      ((((st.route a r c).2.1.routeSeq calls).1.route a' r' c').1
        = Except.ok { next_agent := some "" })) := by
  have hreset : (st.route a r c).2.1 = { config := st.config, current_iteration := 0 } := by
    simp only [LimitRouter.route]
    rw [if_pos h]
  refine ⟨hreset, ?_, ?_⟩
  · intro calls hle
    rw [hreset, routeSeq_under calls { config := st.config, current_iteration := 0 }
      (by show (0 : Int) + (calls.length : Int) ≤ st.config.max_iterations; omega)]
    refine ⟨rfl, ?_⟩
    show (0 : Int) + (calls.length : Int) = (calls.length : Int)
    omega
  · intro calls a' r' c' hlen
    rw [hreset]
    exact (fresh_ceiling_step st.config calls a' r' c' hlen).1

/-- Witness for C3 at `M = 1`, counter already at the ceiling, one follow-up
call forwarded and the second follow-up call terminating again. -/
theorem c3_reset_on_termination_witness :
    (stAtCeiling.current_iteration + 1 > stAtCeiling.config.max_iterations) ∧
    ((stAtCeiling.route () () ()).2.1
      = { config := stAtCeiling.config, current_iteration := 0 }) ∧
    (((stAtCeiling.route () () ()).2.1.routeSeq [((), (), ())]).2
      = [((), (), ())].map
          (fun p => (stAtCeiling.config.orchestrator p.1 p.2.1 p.2.2, []))) ∧
    (((stAtCeiling.route () () ()).2.1.routeSeq [((), (), ())]).1.current_iteration
      = (([((), (), ())] : List (Unit × Unit × Unit)).length : Int)) ∧
    ((((stAtCeiling.route () () ()).2.1.routeSeq [((), (), ())]).1.route () () ()).1
      = Except.ok { next_agent := some "" }) := by
  have h := c3_reset_on_termination stAtCeiling () () () (by decide)
  exact ⟨by decide, h.1, (h.2.1 [((), (), ())] (by decide)).1,
    (h.2.1 [((), (), ())] (by decide)).2, h.2.2 [((), (), ())] () () () (by decide)⟩

/-- C4: with `max_iterations = 0`, the very first call on a fresh instance
already exceeds the ceiling and returns the terminal empty-string handoff;
the delegate is not invoked, witnessed by the outcome being the same for
every orchestrator `st.config.orchestrator`. -/
theorem c4_zero_ceiling_fail_fast (st : LimitRouter α β γ ε) (a : α) (r : β) (c : γ)
    (h0 : st.config.max_iterations = 0) (hfresh : st.current_iteration = 0) :
    (st.route a r c).1 = Except.ok { next_agent := some "" } ∧
    (st.route a r c).2.2 = [ceilingMessage 0] := by
  have hguard : st.current_iteration + 1 > st.config.max_iterations := by omega
  simp only [LimitRouter.route]
  rw [if_pos hguard, h0]
  exact ⟨rfl, rfl⟩

/-- Witness for C4: a fresh router with ceiling `0` and an erroring
delegate still terminates cleanly on call one. -/
theorem c4_zero_ceiling_fail_fast_witness :
    ((routerWith 0 delegateBoom).config.max_iterations = 0) ∧
    ((routerWith 0 delegateBoom).current_iteration = 0) ∧
    ((routerWith 0 delegateBoom).route () () ()).1 = Except.ok { next_agent := some "" } ∧
    ((routerWith 0 delegateBoom).route () () ()).2.2 = [ceilingMessage 0] := by
  have h := c4_zero_ceiling_fail_fast (routerWith 0 delegateBoom) () () () (by decide) (by decide)
  exact ⟨by decide, by decide, h.1, h.2⟩

/-- C5: on an under-ceiling call whose delegate decides to terminate
(`next_agent = none`), the counter still increments by one (and is not
reset), the delegate's own decision is returned unchanged, and no ceiling
diagnostic is printed. -/
theorem c5_delegate_early_stop (st : LimitRouter α β γ ε) (a : α) (r : β) (c : γ)
    (hunder : st.current_iteration + 1 ≤ st.config.max_iterations)
    (hdel : st.config.orchestrator a r c = Except.ok { next_agent := none }) :
    (st.route a r c).1 = Except.ok { next_agent := none } ∧
    (st.route a r c).2.1.current_iteration = st.current_iteration + 1 ∧
    (st.route a r c).2.2 = [] := by
  have hguard : ¬ (st.current_iteration + 1 > st.config.max_iterations) := by omega
  simp only [LimitRouter.route]
  rw [if_neg hguard]
  exact ⟨hdel, rfl, rfl⟩

/-- Witness for C5: the spec's `M = 1` early-stop scenario. -/
theorem c5_delegate_early_stop_witness :
    ((routerWith 1 delegateNone).current_iteration + 1
      ≤ (routerWith 1 delegateNone).config.max_iterations) ∧
    ((routerWith 1 delegateNone).config.orchestrator () () ()
      = Except.ok { next_agent := none }) ∧
    ((routerWith 1 delegateNone).route () () ()).1 = Except.ok { next_agent := none } ∧
    ((routerWith 1 delegateNone).route () () ()).2.1.current_iteration
      = (routerWith 1 delegateNone).current_iteration + 1 ∧
    ((routerWith 1 delegateNone).route () () ()).2.2 = [] := by
  have h := c5_delegate_early_stop (routerWith 1 delegateNone) () () () (by decide) rfl
  exact ⟨by decide, rfl, h.1, h.2.1, h.2.2⟩

/-- C6: `route` never fails for iteration-count reasons — its outcome is
either the router's own terminal handoff (always a success value) or exactly
the delegate's outcome; in particular any exception in the outcome is the
delegate's own exception, propagated unchanged (no retry, no suppression, no
wrapping). -/
theorem c6_error_propagation (st : LimitRouter α β γ ε) (a : α) (r : β) (c : γ) :
    ((st.route a r c).1 = Except.ok { next_agent := some "" } ∨
      (st.route a r c).1 = st.config.orchestrator a r c) ∧
    (∀ e : ε, (st.route a r c).1 = Except.error e →
      st.config.orchestrator a r c = Except.error e) := by
  by_cases hguard : st.current_iteration + 1 > st.config.max_iterations
  · have h1 : (st.route a r c).1 = Except.ok { next_agent := some "" } := by
      simp only [LimitRouter.route]
      rw [if_pos hguard]
    refine ⟨Or.inl h1, ?_⟩
    intro e he
    rw [h1] at he
    exact Except.noConfusion he
  · have h1 : (st.route a r c).1 = st.config.orchestrator a r c := by
      simp only [LimitRouter.route]
      rw [if_neg hguard]
    refine ⟨Or.inr h1, ?_⟩
    intro e he
    rw [h1] at he
    exact he

/-- Witness for C6: a delegate exception surfaces unchanged. -/
theorem c6_error_propagation_witness :
    ((routerWith 3 delegateBoom).route () () ()).1 = Except.error "boom" ∧
    (routerWith 3 delegateBoom).config.orchestrator () () () = Except.error "boom" :=
  ⟨rfl, (c6_error_propagation (routerWith 3 delegateBoom) () () ()).2 "boom" rfl⟩

/-- C7, claim as stated is false: constructing a `LimitRouterConfig` with
the negative `max_iterations = -5` succeeds — pydantic performs no range
validation on the field, so no configuration error is raised. -/
theorem c7_counterexample :
    mkLimitRouterConfig (some (-5)) delegateSummary
      = Except.ok { max_iterations := -5, orchestrator := delegateSummary } := rfl

/-- C7 (amended): construction performs no range validation on
`max_iterations` — every integer value, negative ones and zero included, is
accepted and stored as given, and an omitted value takes the default `10`;
construction never fails with a configuration error over this field. -/
theorem c7_no_range_validation (m : Int)
    (d : α → β → γ → Except ε HandOffRequest) :
    (∃ cfg, mkLimitRouterConfig (some m) d = Except.ok cfg ∧ cfg.max_iterations = m) ∧
    (∃ cfg, mkLimitRouterConfig none d = Except.ok cfg ∧ cfg.max_iterations = 10) :=
  ⟨⟨_, rfl, rfl⟩, ⟨_, rfl, rfl⟩⟩

/-- C8: a call to `route` can change only the `current_iteration` field —
the configuration (both `max_iterations` and the `orchestrator` reference)
is untouched by every call — and the ceiling diagnostic is printed exactly
on the ceiling-triggered termination branch, nothing otherwise. -/
theorem c8_frame_effects (st : LimitRouter α β γ ε) (a : α) (r : β) (c : γ) :
    (st.route a r c).2.1.config = st.config ∧
    (st.route a r c).2.1.config.max_iterations = st.config.max_iterations ∧
    (st.route a r c).2.1.config.orchestrator = st.config.orchestrator ∧
    (st.route a r c).2.2 =
      (if st.current_iteration + 1 > st.config.max_iterations
        then [ceilingMessage st.config.max_iterations] else []) := by
  by_cases hguard : st.current_iteration + 1 > st.config.max_iterations
  · simp only [LimitRouter.route]
    rw [if_pos hguard, if_pos hguard]
    exact ⟨rfl, rfl, rfl, rfl⟩
  · simp only [LimitRouter.route]
    rw [if_neg hguard, if_neg hguard]
    exact ⟨rfl, rfl, rfl, rfl⟩

/-- C9: on the ceiling-triggered termination branch the returned
`HandOffRequest` carries the empty string `""` as the next agent — an
empty-string stop signal for the orchestrator, not an absent (`none`)
value. -/
theorem c9_empty_string_terminal (st : LimitRouter α β γ ε) (a : α) (r : β) (c : γ)
    (h : st.current_iteration + 1 > st.config.max_iterations) :
    (st.route a r c).1 = Except.ok { next_agent := some "" } ∧
    (∀ req : HandOffRequest, (st.route a r c).1 = Except.ok req →
      req.next_agent = some "" ∧ req.next_agent ≠ none) := by
  have h1 : (st.route a r c).1 = Except.ok { next_agent := some "" } := by
    simp only [LimitRouter.route]
    rw [if_pos h]
  refine ⟨h1, ?_⟩
  intro req hreq
  rw [h1] at hreq
  injection hreq with h2
  rw [← h2]
  exact ⟨rfl, by simp⟩

/-- Witness for C9 at the ceiling: the terminal decision names the empty
string, which is not `none`. -/
theorem c9_empty_string_terminal_witness :
    (stAtCeiling.current_iteration + 1 > stAtCeiling.config.max_iterations) ∧
    (stAtCeiling.route () () ()).1 = Except.ok { next_agent := some "" } ∧
    ({ next_agent := some "" } : HandOffRequest).next_agent = some "" ∧
    ({ next_agent := some "" } : HandOffRequest).next_agent ≠ none := by
  have h := c9_empty_string_terminal stAtCeiling () () () (by decide)
  exact ⟨by decide, h.1, h.2 { next_agent := some "" } h.1⟩

/-- C10: when the delegate raises on an under-ceiling call, the counter has
already been incremented and is not rolled back — the post-call state
carries `current_iteration + 1` even though the call's outcome is the
delegate's exception. -/
theorem c10_counter_not_rolled_back (st : LimitRouter α β γ ε)
    (a : α) (r : β) (c : γ) (e : ε)
    (hunder : st.current_iteration + 1 ≤ st.config.max_iterations)
    (hfail : st.config.orchestrator a r c = Except.error e) :
    (st.route a r c).1 = Except.error e ∧
    (st.route a r c).2.1.current_iteration = st.current_iteration + 1 := by
  have hguard : ¬ (st.current_iteration + 1 > st.config.max_iterations) := by omega
  simp only [LimitRouter.route]
  rw [if_neg hguard]
  exact ⟨hfail, rfl⟩

/-- Witness for C10: with ceiling `3` and an erroring delegate, the failed
first call leaves the counter at `1`. -/
theorem c10_counter_not_rolled_back_witness :
    ((routerWith 3 delegateBoom).current_iteration + 1
      ≤ (routerWith 3 delegateBoom).config.max_iterations) ∧
    ((routerWith 3 delegateBoom).config.orchestrator () () () = Except.error "boom") ∧
    ((routerWith 3 delegateBoom).route () () ()).1 = Except.error "boom" ∧
    ((routerWith 3 delegateBoom).route () () ()).2.1.current_iteration
      = (routerWith 3 delegateBoom).current_iteration + 1 := by
  have h := c10_counter_not_rolled_back (routerWith 3 delegateBoom) () () () "boom"
    (by decide) rfl
  exact ⟨by decide, rfl, h.1, h.2⟩
